import Mathlib

/-!
Shallow embedding of the asynchronous evaluation pipeline and job queue of
the CV-screening service (sources: `src/core/services/evaluation-pipeline.ts`,
`src/core/services/job-queue.ts`, the Bull-backed queue, and
`src/infrastructure/database/index.ts`).  JavaScript numbers are modelled as
rationals (`ℚ`), JavaScript strings as `String`, absent (`undefined`) values
as `Option`, and thrown exceptions as `Except` carrying the error message.
-/

namespace Screening

/-- Job lifecycle status, from `shared/types/index.ts`:
`'queued' | 'processing' | 'completed' | 'failed'`. -/
inductive JobStatus where
  | queued
  | processing
  | completed
  | failed
deriving DecidableEq, Repr

/-- One rubric criterion entry `{score, details}` (`CVEvaluation` /
`ProjectEvaluation` field type in `shared/types/index.ts`). -/
structure Criterion where
  score : ℚ
  details : String
deriving DecidableEq, Repr

/-- `CVEvaluation` from `shared/types/index.ts`. -/
structure CVEvaluation where
  technicalSkillsMatch : Criterion
  experienceLevel : Criterion
  relevantAchievements : Criterion
  culturalFit : Criterion
deriving DecidableEq, Repr

/-- `ProjectEvaluation` from `shared/types/index.ts`. -/
structure ProjectEvaluation where
  correctness : Criterion
  codeQuality : Criterion
  resilience : Criterion
  documentation : Criterion
  creativity : Criterion
deriving DecidableEq, Repr

/-- The `finalScore` record of `EvaluationResult`. -/
structure FinalScore where
  cvScore : ℚ
  projectScore : ℚ
  overallScore : ℚ
deriving DecidableEq, Repr

/-- `EvaluationResult` from `shared/types/index.ts`.  The progress-50
checkpoint in `processEvaluation` stores `{} as ProjectEvaluation` for the
project part; that absent evaluation is modelled as `none`. -/
structure EvaluationResult where
  cvEvaluation : CVEvaluation
  projectEvaluation : Option ProjectEvaluation
  overallSummary : String
  finalScore : FinalScore
deriving DecidableEq, Repr

/-! ## Scoring aggregator (`EvaluationPipeline.calculateWeightedScore`) -/

/-- JavaScript `weights[key] || 0`: a missing key yields `undefined`,
which `|| 0` turns into `0`; the number `0` itself is falsy and also
yields `0`, so the lookup is simply "value or 0". -/
def lookupOr0 (weights : List (String × ℚ)) (key : String) : ℚ :=
  (weights.lookup key).getD 0

/-- `EvaluationPipeline.calculateWeightedScore` (evaluation-pipeline.ts
lines 421-432): `scores = Object.entries(evaluation).map(([k, v]) =>
v.score * (weights[k] || 0))`; `totalWeight = Object.values(weights)
.reduce((s, w) => s + w, 0)`; result is `sum(scores) / totalWeight` when
`totalWeight > 0`, else `0`.  The evaluation object's entries (in insertion
order) are the association list `evaluation`. -/
def calculateWeightedScore (evaluation : List (String × Criterion))
    (weights : List (String × ℚ)) : ℚ :=
  let scores := evaluation.map (fun kv => kv.2.score * lookupOr0 weights kv.1)
  let totalWeight := (weights.map (fun kv => kv.2)).foldl (· + ·) 0
  if 0 < totalWeight then scores.foldl (· + ·) 0 / totalWeight else 0

/-- The fixed CV weight table built in `processEvaluation`. -/
def cvWeights : List (String × ℚ) :=
  [("technicalSkillsMatch", 0.4), ("experienceLevel", 0.25),
   ("relevantAchievements", 0.2), ("culturalFit", 0.15)]

/-- The fixed project weight table built in `processEvaluation`. -/
def projectWeights : List (String × ℚ) :=
  [("correctness", 0.3), ("codeQuality", 0.25), ("resilience", 0.2),
   ("documentation", 0.15), ("creativity", 0.1)]

/-- `Object.entries` of a `CVEvaluation` literal, in insertion order. -/
def cvEntries (e : CVEvaluation) : List (String × Criterion) :=
  [("technicalSkillsMatch", e.technicalSkillsMatch),
   ("experienceLevel", e.experienceLevel),
   ("relevantAchievements", e.relevantAchievements),
   ("culturalFit", e.culturalFit)]

/-- `Object.entries` of a `ProjectEvaluation` literal, in insertion order. -/
def projectEntries (e : ProjectEvaluation) : List (String × Criterion) :=
  [("correctness", e.correctness), ("codeQuality", e.codeQuality),
   ("resilience", e.resilience), ("documentation", e.documentation),
   ("creativity", e.creativity)]

/-! ## Parsed-response validation (`evaluateCV` / `evaluateProjectReport`) -/

/-- One criterion of the JSON object produced by `JSON.parse` on the model
response: both fields may be absent (`undefined`). -/
structure RawCriterion where
  score : Option ℚ
  details : Option String
deriving DecidableEq, Repr

/-- The parsed CV response shape; each criterion object may be absent
(accessed with `?.` in the source). -/
structure RawCVEvaluation where
  technicalSkillsMatch : Option RawCriterion
  experienceLevel : Option RawCriterion
  relevantAchievements : Option RawCriterion
  culturalFit : Option RawCriterion
deriving DecidableEq, Repr

/-- The parsed project-report response shape. -/
structure RawProjectEvaluation where
  correctness : Option RawCriterion
  codeQuality : Option RawCriterion
  resilience : Option RawCriterion
  documentation : Option RawCriterion
  creativity : Option RawCriterion
deriving DecidableEq, Repr

/-- JavaScript `x?.score || 3` for a numeric-or-absent score: `undefined`
yields `3`, and the falsy number `0` also yields `3`; any other number is
kept. -/
def jsScoreOr3 (v : Option ℚ) : ℚ :=
  match v with
  | none => 3
  | some s => if s = 0 then 3 else s

/-- `Math.max(1, Math.min(5, evaluation.<criterion>?.score || 3))`
(evaluation-pipeline.ts lines 233, 237, 241, 245 and 349-365). -/
def validateScore (v : Option ℚ) : ℚ :=
  max 1 (min 5 (jsScoreOr3 v))

/-- JavaScript `x?.details || 'No details provided'`: `undefined` and the
falsy empty string both yield the default. -/
def jsDetailsOrDefault (v : Option String) : String :=
  match v with
  | none => "No details provided"
  | some s => if s = "" then "No details provided" else s

/-- Validation of one criterion object of the parsed response. -/
def validateCriterion (c : Option RawCriterion) : Criterion :=
  { score := validateScore (c.bind (fun r => r.score)),
    details := jsDetailsOrDefault (c.bind (fun r => r.details)) }

/-- The clamp/validate step of `evaluateCV` (lines 231-248). -/
def validateCVEvaluation (raw : RawCVEvaluation) : CVEvaluation :=
  { technicalSkillsMatch := validateCriterion raw.technicalSkillsMatch,
    experienceLevel := validateCriterion raw.experienceLevel,
    relevantAchievements := validateCriterion raw.relevantAchievements,
    culturalFit := validateCriterion raw.culturalFit }

/-- The clamp/validate step of `evaluateProjectReport` (lines 347-368). -/
def validateProjectEvaluation (raw : RawProjectEvaluation) : ProjectEvaluation :=
  { correctness := validateCriterion raw.correctness,
    codeQuality := validateCriterion raw.codeQuality,
    resilience := validateCriterion raw.resilience,
    documentation := validateCriterion raw.documentation,
    creativity := validateCriterion raw.creativity }

/-- The default CV evaluation returned when parsing the model response
throws (evaluateCV lines 254-259). -/
def defaultCVEvaluation : CVEvaluation :=
  { technicalSkillsMatch := { score := 3, details := "Evaluation parsing failed" },
    experienceLevel := { score := 3, details := "Evaluation parsing failed" },
    relevantAchievements := { score := 3, details := "Evaluation parsing failed" },
    culturalFit := { score := 3, details := "Evaluation parsing failed" } }

/-- The default project evaluation returned when parsing the model response
throws (evaluateProjectReport lines 374-380). -/
def defaultProjectEvaluation : ProjectEvaluation :=
  { correctness := { score := 3, details := "Evaluation parsing failed" },
    codeQuality := { score := 3, details := "Evaluation parsing failed" },
    resilience := { score := 3, details := "Evaluation parsing failed" },
    documentation := { score := 3, details := "Evaluation parsing failed" },
    creativity := { score := 3, details := "Evaluation parsing failed" } }

/-! ## Retryable invoker (`EvaluationPipeline.callLLM`, lines 23-82) -/

/-- The `{response, success, error?}` record returned by `callLLM`. -/
structure LLMResponse where
  response : String
  success : Bool
  error : Option String
deriving DecidableEq, Repr

/-- Outcome of one call to the external text-completion collaborator:
a returned text, a thrown `ApiError` with an HTTP status, or another
thrown `Error` with a message. -/
inductive LLMAttemptOutcome where
  | success (text : String)
  | apiError (status : Nat) (message : String)
  | jsError (message : String)
deriving DecidableEq, Repr

/-- The errors that can reach the `catch` block of an attempt: an
`ApiError` or a plain `Error` (an empty/whitespace-only response is turned
into `Error('Empty response from LLM')` before the catch). -/
inductive AttemptError where
  | api (status : Nat) (message : String)
  | js (message : String)
deriving DecidableEq, Repr

/-- The body of one `try` block of `callLLM`: call the collaborator; an
empty or whitespace-only response throws `Error('Empty response from LLM')`;
otherwise the trimmed text is returned. -/
def runAttempt (o : LLMAttemptOutcome) : Except AttemptError String :=
  match o with
  | .success t =>
      if t.trim.length = 0 then .error (.js "Empty response from LLM")
      else .ok t.trim
  | .apiError s m => .error (.api s m)
  | .jsError m => .error (.js m)

/-- `error.status === 400 || error.status === 403` for an `ApiError`. -/
def isNonRetryable : AttemptError → Bool
  | .api s _ => s == 400 || s == 403
  | .js _ => false

/-- `error instanceof Error ? error.message : 'Unknown error'` — both
modelled error kinds are `Error` instances carrying a message. -/
def errorMessage : AttemptError → String
  | .api _ m => m
  | .js m => m

/-- The retry loop of `callLLM`, one constructor per remaining attempt.
`oracle k` is the outcome of the k-th collaborator call (attempts are
numbered from 1); the result pairs the `LLMResponse` with the number of
collaborator calls made.  On a non-retryable `ApiError` the loop returns
`{response:'', success:false, error:'API Error: ' + message}` at once; on
the final attempt it returns the last error's message; otherwise it backs
off and retries. -/
def callLLMGo (oracle : Nat → LLMAttemptOutcome) :
    Nat → Nat → Nat → LLMResponse × Nat
  | _, calls, 0 =>
      ({ response := "", success := false, error := some "Max retries exceeded" },
       calls)
  | attempt, calls, remaining + 1 =>
      match runAttempt (oracle attempt) with
      | .ok t => ({ response := t, success := true, error := none }, calls + 1)
      | .error e =>
          if isNonRetryable e then
            ({ response := "", success := false,
               error := some ("API Error: " ++ errorMessage e) }, calls + 1)
          else if remaining = 0 then
            ({ response := "", success := false,
               error := some (errorMessage e) }, calls + 1)
          else
            callLLMGo oracle (attempt + 1) (calls + 1) remaining

/-- `callLLM(prompt, maxRetries, temperature)` with the collaborator's
behaviour abstracted as `oracle` (the prompt and temperature only shape
the collaborator call, which the oracle stands for). -/
def callLLM (oracle : Nat → LLMAttemptOutcome) (maxRetries : Nat) :
    LLMResponse × Nat :=
  callLLMGo oracle 1 0 maxRetries

/-- An attempt outcome the `callLLM` loop classifies as retryable
(transient): it fails, and not with an `ApiError` of status 400 or 403. -/
def isTransientFailure (o : LLMAttemptOutcome) : Prop :=
  match runAttempt o with
  | .ok _ => False
  | .error e => isNonRetryable e = false

/-- The message `callLLM` attaches when the given outcome is the last,
failed attempt. -/
def lastAttemptMessage (o : LLMAttemptOutcome) : String :=
  match runAttempt o with
  | .ok _ => ""
  | .error e => errorMessage e

/-! ## Context assembler (`retrieveRelevantContext`, lines 84-148) -/

/-- Outcome of one ChromaDB query as seen by `retrieveRelevantContext`:
either the collaborator throws (`err`), or it returns and
`results.documents?.[0]` is the given optional list of passages. -/
inductive QueryOutcome where
  | ok (docs : Option (List String))
  | err
deriving DecidableEq, Repr

/-- The static fallback context chosen by `documentType` in the `catch`
block of `retrieveRelevantContext` (lines 119-146). -/
def fallbackContext (documentType : String) : String :=
  if documentType = "cv" then "CV content available for analysis"
  else if documentType = "project_report" then
    "Project report content available for analysis"
  else if documentType = "job_description" then
    "\n          JOB REQUIREMENTS: Product Engineer (Backend)\n          - Building new product features using Agile methodology\n          - Writing clean, efficient code for product codebase\n          - Designing and fine-tuning AI prompts\n          - Building LLM chaining flows and RAG systems\n          - Handling async background workers and job orchestration\n          - Implementing safeguards for 3rd party API failures\n          - Experience with backend development, databases, APIs\n        "
  else if documentType = "scoring_rubric" then
    "\n          EVALUATION CRITERIA:\n          Technical Skills: 1-5 scale, assess coding ability, tech stack knowledge\n          Experience Level: 1-5 scale, assess relevant industry experience\n          Achievements: 1-5 scale, assess notable accomplishments and impact\n          Quality: 1-5 scale, assess code quality, best practices, documentation\n          Correctness: 1-5 scale, assess implementation accuracy and bug-free code\n        "
  else "Content available for evaluation"

/-- `retrieveRelevantContext(documentId, query, documentType, nResults)`
with the two collaborator queries abstracted as outcomes.  Primary path:
if `results.documents?.[0]` exists and is non-empty, join with `'\n\n'`;
otherwise fall back to the reference collection; if its
`documents?.[0]` exists (even empty) join it, else return `''`.  Any
thrown error lands in the `catch` block, which returns the static
fallback for the `documentType`. -/
def retrieveRelevantContext (primary : QueryOutcome) (ref : QueryOutcome)
    (documentType : String) : String :=
  match primary with
  | .err => fallbackContext documentType
  | .ok primaryDocs =>
      match primaryDocs with
      | some docs =>
          if 0 < docs.length then String.intercalate "\n\n" docs
          else
            match ref with
            | .err => fallbackContext documentType
            | .ok (some refDocs) => String.intercalate "\n\n" refDocs
            | .ok none => ""
      | none =>
          match ref with
          | .err => fallbackContext documentType
          | .ok (some refDocs) => String.intercalate "\n\n" refDocs
          | .ok none => ""

/-! ## Evaluation stages (`evaluateCV`, `evaluateProjectReport`,
`generateFinalSummary`) -/

/-- `evaluateCV` (lines 150-261) after the LLM call, with JSON parsing
abstracted: if the invoker failed, throw
`'CV evaluation failed: ' + error`; if `JSON.parse` (after code-fence
stripping) throws, return the default evaluation; otherwise validate the
parsed shape. -/
def evaluateCV (llm : LLMResponse) (parsed : Option RawCVEvaluation) :
    Except String CVEvaluation :=
  match llm.success with
  | false => .error ("CV evaluation failed: " ++ llm.error.getD "undefined")
  | true =>
      match parsed with
      | some raw => .ok (validateCVEvaluation raw)
      | none => .ok defaultCVEvaluation

/-- `evaluateProjectReport` (lines 263-382), same structure as
`evaluateCV`. -/
def evaluateProjectReport (llm : LLMResponse)
    (parsed : Option RawProjectEvaluation) : Except String ProjectEvaluation :=
  match llm.success with
  | false => .error ("Project evaluation failed: " ++ llm.error.getD "undefined")
  | true =>
      match parsed with
      | some raw => .ok (validateProjectEvaluation raw)
      | none => .ok defaultProjectEvaluation

/-- `generateFinalSummary` (lines 384-419): on invoker failure it
substitutes a fixed string instead of throwing. -/
def generateFinalSummary (llm : LLMResponse) : String :=
  match llm.success with
  | false => "Failed to generate summary due to technical issues."
  | true => llm.response

/-- `Math.round(x * 100) / 100` (round half toward positive infinity). -/
def round2 (x : ℚ) : ℚ :=
  (⌊x * 100 + 1/2⌋ : ℚ) / 100

/-! ## The per-job pipeline (`processEvaluation`, lines 434-512) and the
job-store updates it performs -/

/-- One call to `db.updateJobStatus(id, status, progress?, result?,
error?)` as issued by the core (the arguments after the id). -/
structure JobUpdate where
  status : JobStatus
  progress : Option ℚ
  result : Option EvaluationResult
  error : Option String
deriving DecidableEq, Repr

/-- The four mutable columns of a row of the `jobs` table. -/
structure JobRecord where
  status : JobStatus
  progress : ℚ
  result : Option EvaluationResult
  error : Option String
deriving DecidableEq, Repr

/-- `DatabaseService.updateJobStatus` (database/index.ts lines 316-334):
`UPDATE jobs SET status = $1, progress = $2, result = $3, error = $4`
with `progress || 0`, `result ? JSON.stringify(result) : null` and
`error || null` — every column is overwritten on each update. -/
def applyUpdate (r : JobRecord) (u : JobUpdate) : JobRecord :=
  { status := u.status, progress := u.progress.getD 0,
    result := u.result, error := u.error }

/-- Folding a list of updates into the stored row. -/
def applyUpdates (r : JobRecord) (us : List JobUpdate) : JobRecord :=
  us.foldl applyUpdate r

/-- The update written by the `catch` block of `processEvaluation` (line
507): `db.updateJobStatus(jobId, 'failed', 0, undefined, message)`. -/
def failedUpdate (message : String) : JobUpdate :=
  { status := .failed, progress := some 0, result := none,
    error := some message }

/-- The partial result persisted at progress 50 (lines 449-458): the CV
evaluation together with `{} as ProjectEvaluation`, an empty summary and
zero scores. -/
def partialResult (cvEval : CVEvaluation) : EvaluationResult :=
  { cvEvaluation := cvEval, projectEvaluation := none, overallSummary := "",
    finalScore := { cvScore := 0, projectScore := 0, overallScore := 0 } }

/-- `processEvaluation` (lines 434-512) with the two evaluation stages and
the summary-stage invoker outcome as inputs; returns the ordered list of
`db.updateJobStatus` calls it performs and the overall outcome (the
returned result, or the re-thrown error's message).  The update sequence
is: (processing, 10), (processing, 20), CV stage; (processing, 50,
partial result), (processing, 60), project stage; weighted scores;
(processing, 80), summary; (completed, 100, final result).  Any stage
error jumps to the catch block, which appends the failed update. -/
def processEvaluation (cvRes : Except String CVEvaluation)
    (projRes : Except String ProjectEvaluation) (summaryLLM : LLMResponse) :
    List JobUpdate × Except String EvaluationResult :=
  let u10 : JobUpdate :=
    { status := .processing, progress := some 10, result := none, error := none }
  let u20 : JobUpdate :=
    { status := .processing, progress := some 20, result := none, error := none }
  match cvRes with
  | .error msg => ([u10, u20, failedUpdate msg], .error msg)
  | .ok cvEval =>
      let u50 : JobUpdate :=
        { status := .processing, progress := some 50,
          result := some (partialResult cvEval), error := none }
      let u60 : JobUpdate :=
        { status := .processing, progress := some 60, result := none, error := none }
      match projRes with
      | .error msg => ([u10, u20, u50, u60, failedUpdate msg], .error msg)
      | .ok projEval =>
          let cvScore := calculateWeightedScore (cvEntries cvEval) cvWeights
          let projectScore :=
            calculateWeightedScore (projectEntries projEval) projectWeights
          let overallScore := (cvScore + projectScore) / 2
          let u80 : JobUpdate :=
            { status := .processing, progress := some 80, result := none,
              error := none }
          let overallSummary := generateFinalSummary summaryLLM
          let result : EvaluationResult :=
            { cvEvaluation := cvEval, projectEvaluation := some projEval,
              overallSummary := overallSummary,
              finalScore :=
                { cvScore := round2 cvScore, projectScore := round2 projectScore,
                  overallScore := round2 overallScore } }
          let u100 : JobUpdate :=
            { status := .completed, progress := some 100, result := some result,
              error := none }
          ([u10, u20, u50, u60, u80, u100], .ok result)

/-- The whole pipeline run for one job, composing the stage functions:
each stage's collaborator interaction is given by its `LLMResponse` and
parse outcome. -/
def runEvaluation (cvLLM : LLMResponse) (cvParsed : Option RawCVEvaluation)
    (projLLM : LLMResponse) (projParsed : Option RawProjectEvaluation)
    (summaryLLM : LLMResponse) : List JobUpdate × Except String EvaluationResult :=
  processEvaluation (evaluateCV cvLLM cvParsed)
    (evaluateProjectReport projLLM projParsed) summaryLLM

/-! ## In-memory job queue (`job-queue.ts`) -/

/-- A job held in the `JobQueue` map, with its creation timestamp in
milliseconds (`createdAt.getTime()`). -/
structure QJob where
  id : String
  status : JobStatus
  createdAt : Int
deriving DecidableEq, Repr

/-- The comparator relation of
`.sort((a, b) => b.createdAt.getTime() - a.createdAt.getTime())`:
`a` may precede `b` exactly when the comparator is `≤ 0`, i.e. when
`b.createdAt ≤ a.createdAt` — descending creation time. -/
def byCreatedAtDesc (a b : QJob) : Prop :=
  b.createdAt ≤ a.createdAt

instance : DecidableRel byCreatedAtDesc := fun a b =>
  inferInstanceAs (Decidable (b.createdAt ≤ a.createdAt))

instance : IsTotal QJob byCreatedAtDesc :=
  ⟨fun a b => le_total b.createdAt a.createdAt⟩

instance : IsTrans QJob byCreatedAtDesc :=
  ⟨fun _ _ _ h h' => le_trans h' h⟩

/-- `JobQueue.getJobsByStatus` (job-queue.ts lines 68-72): filter the map's
values (insertion order) by status, then stable-sort by the descending
comparator — most recently created first. -/
def getJobsByStatus (jobs : List QJob) (status : JobStatus) : List QJob :=
  (jobs.filter (fun j => j.status = status)).insertionSort byCreatedAtDesc

/-- The job admitted by one iteration of `JobQueue.startProcessing`
(lines 128-148): `queuedJobs[0]` of `getQueuedJobs()`, i.e. the head of
the queued jobs sorted most-recent-first. -/
def nextJobToProcess (jobs : List QJob) : Option QJob :=
  (getJobsByStatus jobs .queued).head?

/-! ## Concurrency admission (`BullJobQueue.setupProcessors`) -/

/-- The concurrency limit passed to `queue.process('evaluation', 3, ...)`
in `BullJobQueue.setupProcessors`. -/
def evaluationConcurrency : Nat := 3

/-- Number of jobs currently in `processing`. -/
def countProcessing (s : List JobStatus) : Nat :=
  (s.filter (fun st => st = JobStatus.processing)).length

/-- Interleaving semantics of the Bull-backed scheduler, as configured by
`BullJobQueue`: a state is the list of job statuses.  `submit` adds a
`queued` job (`addJob`); `admitJob` moves a queued job to `processing`, which
the worker pool of `queue.process('evaluation', limit, handler)` allows
only while fewer than `limit` handlers are active; `complete` and `fail`
are the handler's terminal transitions. -/
inductive SchedulerStep (limit : Nat) : List JobStatus → List JobStatus → Prop
  | submit (s : List JobStatus) : SchedulerStep limit s (JobStatus.queued :: s)
  | admitJob (pre post : List JobStatus)
      (h : countProcessing (pre ++ JobStatus.queued :: post) < limit) :
      SchedulerStep limit (pre ++ JobStatus.queued :: post)
        (pre ++ JobStatus.processing :: post)
  | complete (pre post : List JobStatus) :
      SchedulerStep limit (pre ++ JobStatus.processing :: post)
        (pre ++ JobStatus.completed :: post)
  | fail (pre post : List JobStatus) :
      SchedulerStep limit (pre ++ JobStatus.processing :: post)
        (pre ++ JobStatus.failed :: post)

/-- A scheduler state reachable from the empty queue by any interleaving
of submissions, admissions and terminations. -/
def SchedulerReachable (limit : Nat) (s : List JobStatus) : Prop :=
  Relation.ReflTransGen (SchedulerStep limit) [] s

/-- A CV evaluation whose criteria all carry the out-of-range score 6,
used to refute C4. -/
def outOfRangeCVEvaluation : CVEvaluation :=
  { technicalSkillsMatch := { score := 6, details := "x" },
    experienceLevel := { score := 6, details := "x" },
    relevantAchievements := { score := 6, details := "x" },
    culturalFit := { score := 6, details := "x" } }

/-- An earlier-created queued job, used to refute C1. -/
def demoJobA : QJob := { id := "a", status := .queued, createdAt := 1 }

/-- A later-created queued job, used to refute C1. -/
def demoJobB : QJob := { id := "b", status := .queued, createdAt := 2 }

/-! ## Theorems -/

/-- C3: for every evaluation run that raises no unhandled exception (both
evaluation stages return a value), `processEvaluation` writes job-record
updates in exactly this order: (processing, 10), (processing, 20),
(processing, 50 with a partial result holding the CV evaluation, an empty
project evaluation, empty summary and zero scores), (processing, 60),
(processing, 80), and finally (completed, 100 with the final
`EvaluationResult`). -/
theorem processEvaluation_update_order (e1 : CVEvaluation)
    (e2 : ProjectEvaluation) (s : LLMResponse) :
    processEvaluation (Except.ok e1) (Except.ok e2) s =
      ([{ status := .processing, progress := some 10, result := none, error := none },
        { status := .processing, progress := some 20, result := none, error := none },
        { status := .processing, progress := some 50,
          result := some { cvEvaluation := e1, projectEvaluation := none,
                           overallSummary := "",
                           finalScore := { cvScore := 0, projectScore := 0,
                                           overallScore := 0 } },
          error := none },
        { status := .processing, progress := some 60, result := none, error := none },
        { status := .processing, progress := some 80, result := none, error := none },
        { status := .completed, progress := some 100,
          result := some { cvEvaluation := e1, projectEvaluation := some e2,
                           overallSummary := generateFinalSummary s,
                           finalScore :=
                             { cvScore := round2 (calculateWeightedScore (cvEntries e1) cvWeights),
                               projectScore := round2 (calculateWeightedScore (projectEntries e2) projectWeights),
                               overallScore := round2 ((calculateWeightedScore (cvEntries e1) cvWeights +
                                 calculateWeightedScore (projectEntries e2) projectWeights) / 2) } },
          error := none }],
       Except.ok
         { cvEvaluation := e1, projectEvaluation := some e2,
           overallSummary := generateFinalSummary s,
           finalScore :=
             { cvScore := round2 (calculateWeightedScore (cvEntries e1) cvWeights),
               projectScore := round2 (calculateWeightedScore (projectEntries e2) projectWeights),
               overallScore := round2 ((calculateWeightedScore (cvEntries e1) cvWeights +
                 calculateWeightedScore (projectEntries e2) projectWeights) / 2) } }) := rfl

/-- C10: whenever the run ends via the error handler, the trace ends with
exactly one `failed` update, which sets status `failed`, progress 0,
result `null` and error to the caught exception's message; replaying the
whole trace against any stored row erases the progress-50 partial result
and leaves only the error message. -/
theorem failure_handler_final_update (e1 : CVEvaluation) (msg : String)
    (projRes : Except String ProjectEvaluation) (sLLM : LLMResponse)
    (r : JobRecord) :
    (processEvaluation (Except.error msg) projRes sLLM).1 =
      [{ status := .processing, progress := some 10, result := none, error := none },
       { status := .processing, progress := some 20, result := none, error := none },
       failedUpdate msg] ∧
    (processEvaluation (Except.ok e1) (Except.error msg) sLLM).1 =
      [{ status := .processing, progress := some 10, result := none, error := none },
       { status := .processing, progress := some 20, result := none, error := none },
       { status := .processing, progress := some 50,
         result := some (partialResult e1), error := none },
       { status := .processing, progress := some 60, result := none, error := none },
       failedUpdate msg] ∧
    failedUpdate msg =
      { status := .failed, progress := some 0, result := none, error := some msg } ∧
    applyUpdates r (processEvaluation (Except.ok e1) (Except.error msg) sLLM).1 =
      { status := .failed, progress := 0, result := none, error := some msg } ∧
    ((processEvaluation (Except.ok e1) (Except.error msg) sLLM).1.filter
        (fun u => u.status = .failed)).length = 1 ∧
    ((processEvaluation (Except.error msg) projRes sLLM).1.filter
        (fun u => u.status = .failed)).length = 1 := by
  refine ⟨rfl, rfl, rfl, rfl, ?_, ?_⟩ <;>
    simp [processEvaluation, failedUpdate, List.filter]

/-- C9: every job-record update performed by `processEvaluation` (on any
path) sets `result` only with status `processing` or `completed`, sets
`error` only with status `failed`, and the progress values of the updates
made while the status remains `processing` are monotonically
non-decreasing. -/
theorem job_update_invariant (cvRes : Except String CVEvaluation)
    (projRes : Except String ProjectEvaluation) (sLLM : LLMResponse) :
    (∀ u ∈ (processEvaluation cvRes projRes sLLM).1,
      (u.result ≠ none → u.status = .processing ∨ u.status = .completed) ∧
      (u.error ≠ none → u.status = .failed)) ∧
    List.Chain' (· ≤ ·)
      (((processEvaluation cvRes projRes sLLM).1.filter
          (fun u => u.status = .processing)).map (fun u => u.progress.getD 0)) := by
  cases cvRes with
  | error msg =>
      constructor
      · intro u hu
        simp [processEvaluation, failedUpdate] at hu
        rcases hu with rfl | rfl | rfl <;> simp
      · show List.Chain' (· ≤ ·) [(10 : ℚ), 20]
        norm_num [List.chain'_cons]
  | ok e1 =>
      cases projRes with
      | error msg =>
          constructor
          · intro u hu
            simp [processEvaluation, failedUpdate] at hu
            rcases hu with rfl | rfl | rfl | rfl | rfl <;> simp
          · show List.Chain' (· ≤ ·) [(10 : ℚ), 20, 50, 60]
            norm_num [List.chain'_cons]
      | ok e2 =>
          constructor
          · intro u hu
            simp [processEvaluation] at hu
            rcases hu with rfl | rfl | rfl | rfl | rfl | rfl <;> simp
          · show List.Chain' (· ≤ ·) [(10 : ℚ), 20, 50, 60, 80]
            norm_num [List.chain'_cons]

/-- C7: when the text-completion call for the CV (or project) evaluation
stage succeeds but its response cannot be parsed, that stage yields the
neutral default evaluation (every criterion scored 3 with the fixed
parse-failure details text), the job is not failed by this, subsequent
stages proceed, and the run still ends with the (completed, 100)
update. -/
theorem parse_failure_degrades_gracefully (t : String) (e : Option String)
    (pt : String) (pe : Option String) (cvParsed : Option RawCVEvaluation)
    (projParsed : Option RawProjectEvaluation) (sLLM : LLMResponse) :
    evaluateCV { response := t, success := true, error := e } none =
      Except.ok defaultCVEvaluation ∧
    defaultCVEvaluation =
      { technicalSkillsMatch := { score := 3, details := "Evaluation parsing failed" },
        experienceLevel := { score := 3, details := "Evaluation parsing failed" },
        relevantAchievements := { score := 3, details := "Evaluation parsing failed" },
        culturalFit := { score := 3, details := "Evaluation parsing failed" } } ∧
    evaluateProjectReport { response := pt, success := true, error := pe } none =
      Except.ok defaultProjectEvaluation ∧
    defaultProjectEvaluation =
      { correctness := { score := 3, details := "Evaluation parsing failed" },
        codeQuality := { score := 3, details := "Evaluation parsing failed" },
        resilience := { score := 3, details := "Evaluation parsing failed" },
        documentation := { score := 3, details := "Evaluation parsing failed" },
        creativity := { score := 3, details := "Evaluation parsing failed" } } ∧
    (runEvaluation { response := t, success := true, error := e } none
        { response := pt, success := true, error := pe } projParsed sLLM).2.isOk = true ∧
    ((runEvaluation { response := t, success := true, error := e } none
        { response := pt, success := true, error := pe } projParsed sLLM).1.getLast?).map
        (fun u => (u.status, u.progress)) = some (.completed, some 100) ∧
    (runEvaluation { response := t, success := true, error := e } cvParsed
        { response := pt, success := true, error := pe } none sLLM).2.isOk = true ∧
    ((runEvaluation { response := t, success := true, error := e } cvParsed
        { response := pt, success := true, error := pe } none sLLM).1.getLast?).map
        (fun u => (u.status, u.progress)) = some (.completed, some 100) := by
  cases cvParsed <;> cases projParsed <;>
    exact ⟨rfl, rfl, rfl, rfl, rfl, rfl, rfl, rfl⟩

/-- C8: `retrieveRelevantContext` is a total function (it never throws to
its caller), and whenever the retrieval collaborator errors — on the
primary query or on the reference-corpus fallback — it returns the static
placeholder selected by `documentType`, the four canned texts for cv,
project-report, job-description and scoring-rubric being pairwise
distinct. -/
theorem retrieveContext_error_fallback (ref : QueryOutcome) (dt : String) :
    retrieveRelevantContext .err ref dt = fallbackContext dt ∧
    retrieveRelevantContext (.ok none) .err dt = fallbackContext dt ∧
    (fallbackContext "cv" ≠ fallbackContext "project_report" ∧
     fallbackContext "cv" ≠ fallbackContext "job_description" ∧
     fallbackContext "cv" ≠ fallbackContext "scoring_rubric" ∧
     fallbackContext "project_report" ≠ fallbackContext "job_description" ∧
     fallbackContext "project_report" ≠ fallbackContext "scoring_rubric" ∧
     fallbackContext "job_description" ≠ fallbackContext "scoring_rubric") := by
  exact ⟨rfl, rfl, by decide⟩

/-- C5 counterexample: the claim says a raw score of 0 is coerced to the
lower bound 1, but `score || 3` treats the falsy number 0 like an absent
score, so validation yields 3, not 1. -/
theorem validateScore_zero_counterexample :
    validateScore (some 0) = 3 ∧ validateScore (some 0) ≠ 1 := by
  constructor <;> norm_num [validateScore, jsScoreOr3]

/-- C5 amended: validation of a raw score clamps it into [1,5] except at
0 — an absent score yields 3, a raw score of exactly 0 (falsy in
JavaScript) also yields 3, any other value is clamped to the nearest
bound (negatives yield 1, values above 5 yield 5, in-range values are
kept). -/
theorem validateScore_characterization (s : ℚ) :
    validateScore none = 3 ∧
    validateScore (some s) = if s = 0 then 3 else max 1 (min 5 s) := by
  constructor
  · norm_num [validateScore, jsScoreOr3]
  · by_cases h : s = 0 <;> simp [validateScore, jsScoreOr3, h] <;> norm_num

/-- C4 counterexample: `calculateWeightedScore` does not clamp its inputs
(clamping happens earlier, at parse validation), so an evaluation with
out-of-range scores drives the output outside [1,5]: with every score 6
and the fixed CV weight table the result is 6. -/
theorem weightedScore_out_of_range_counterexample :
    calculateWeightedScore (cvEntries outOfRangeCVEvaluation) cvWeights = 6 ∧
    ¬ calculateWeightedScore (cvEntries outOfRangeCVEvaluation) cvWeights ≤ 5 := by
  have h : calculateWeightedScore (cvEntries outOfRangeCVEvaluation) cvWeights = 6 := by
    show (if (0 : ℚ) < 0 + 0.4 + 0.25 + 0.2 + 0.15 then
        (0 + 6 * 0.4 + 6 * 0.25 + 6 * 0.2 + 6 * 0.15) / (0 + 0.4 + 0.25 + 0.2 + 0.15)
      else 0) = 6
    rw [if_pos (by norm_num)]
    norm_num
  exact ⟨h, by rw [h]; norm_num⟩

/-- C4 amended: for every evaluation of either pipeline shape (the
four-criterion CV shape or the five-criterion project shape) whose
criterion scores already lie in [1,5] (as the upstream clamping
guarantees), and every weight table over those criteria with
non-negative weights of positive total, the weighted score lies in
[1,5]; out-of-range scores can escape the interval. -/
theorem weightedScore_bounds_clamped
    (s1 s2 s3 s4 w1 w2 w3 w4 t1 t2 t3 t4 t5 v1 v2 v3 v4 v5 : ℚ)
    (d1 d2 d3 d4 g1 g2 g3 g4 g5 : String)
    (hs1 : 1 ≤ s1) (hs1' : s1 ≤ 5) (hs2 : 1 ≤ s2) (hs2' : s2 ≤ 5)
    (hs3 : 1 ≤ s3) (hs3' : s3 ≤ 5) (hs4 : 1 ≤ s4) (hs4' : s4 ≤ 5)
    (hw1 : 0 ≤ w1) (hw2 : 0 ≤ w2) (hw3 : 0 ≤ w3) (hw4 : 0 ≤ w4)
    (hW : 0 < w1 + w2 + w3 + w4)
    (ht1 : 1 ≤ t1) (ht1' : t1 ≤ 5) (ht2 : 1 ≤ t2) (ht2' : t2 ≤ 5)
    (ht3 : 1 ≤ t3) (ht3' : t3 ≤ 5) (ht4 : 1 ≤ t4) (ht4' : t4 ≤ 5)
    (ht5 : 1 ≤ t5) (ht5' : t5 ≤ 5)
    (hv1 : 0 ≤ v1) (hv2 : 0 ≤ v2) (hv3 : 0 ≤ v3) (hv4 : 0 ≤ v4) (hv5 : 0 ≤ v5)
    (hV : 0 < v1 + v2 + v3 + v4 + v5) :
    1 ≤ calculateWeightedScore
        (cvEntries { technicalSkillsMatch := { score := s1, details := d1 },
                     experienceLevel := { score := s2, details := d2 },
                     relevantAchievements := { score := s3, details := d3 },
                     culturalFit := { score := s4, details := d4 } })
        [("technicalSkillsMatch", w1), ("experienceLevel", w2),
         ("relevantAchievements", w3), ("culturalFit", w4)] ∧
    calculateWeightedScore
        (cvEntries { technicalSkillsMatch := { score := s1, details := d1 },
                     experienceLevel := { score := s2, details := d2 },
                     relevantAchievements := { score := s3, details := d3 },
                     culturalFit := { score := s4, details := d4 } })
        [("technicalSkillsMatch", w1), ("experienceLevel", w2),
         ("relevantAchievements", w3), ("culturalFit", w4)] ≤ 5 ∧
    1 ≤ calculateWeightedScore
        (projectEntries { correctness := { score := t1, details := g1 },
                              codeQuality := { score := t2, details := g2 },
                              resilience := { score := t3, details := g3 },
                              documentation := { score := t4, details := g4 },
                              creativity := { score := t5, details := g5 } })
        [("correctness", v1), ("codeQuality", v2), ("resilience", v3),
         ("documentation", v4), ("creativity", v5)] ∧
    calculateWeightedScore
        (projectEntries { correctness := { score := t1, details := g1 },
                              codeQuality := { score := t2, details := g2 },
                              resilience := { score := t3, details := g3 },
                              documentation := { score := t4, details := g4 },
                              creativity := { score := t5, details := g5 } })
        [("correctness", v1), ("codeQuality", v2), ("resilience", v3),
         ("documentation", v4), ("creativity", v5)] ≤ 5 := by
  have hkey : calculateWeightedScore
      (cvEntries { technicalSkillsMatch := { score := s1, details := d1 },
                     experienceLevel := { score := s2, details := d2 },
                     relevantAchievements := { score := s3, details := d3 },
                     culturalFit := { score := s4, details := d4 } })
        [("technicalSkillsMatch", w1), ("experienceLevel", w2),
         ("relevantAchievements", w3), ("culturalFit", w4)] =
      (0 + s1 * w1 + s2 * w2 + s3 * w3 + s4 * w4) / (0 + w1 + w2 + w3 + w4) := by
    show (if 0 < 0 + w1 + w2 + w3 + w4 then
        (0 + s1 * w1 + s2 * w2 + s3 * w3 + s4 * w4) / (0 + w1 + w2 + w3 + w4)
      else 0) = _
    rw [if_pos (by linarith)]
  have hkeyP : calculateWeightedScore
      (projectEntries { correctness := { score := t1, details := g1 },
                              codeQuality := { score := t2, details := g2 },
                              resilience := { score := t3, details := g3 },
                              documentation := { score := t4, details := g4 },
                              creativity := { score := t5, details := g5 } })
        [("correctness", v1), ("codeQuality", v2), ("resilience", v3),
         ("documentation", v4), ("creativity", v5)] =
      (0 + t1 * v1 + t2 * v2 + t3 * v3 + t4 * v4 + t5 * v5) /
        (0 + v1 + v2 + v3 + v4 + v5) := by
    show (if 0 < 0 + v1 + v2 + v3 + v4 + v5 then
        (0 + t1 * v1 + t2 * v2 + t3 * v3 + t4 * v4 + t5 * v5) /
          (0 + v1 + v2 + v3 + v4 + v5)
      else 0) = _
    rw [if_pos (by linarith)]
  rw [hkey, hkeyP]
  have hW' : (0 : ℚ) < 0 + w1 + w2 + w3 + w4 := by linarith
  have hV' : (0 : ℚ) < 0 + v1 + v2 + v3 + v4 + v5 := by linarith
  refine ⟨?_, ?_, ?_, ?_⟩
  · rw [le_div_iff₀ hW']
    linarith [mul_le_mul_of_nonneg_right hs1 hw1, mul_le_mul_of_nonneg_right hs2 hw2,
      mul_le_mul_of_nonneg_right hs3 hw3, mul_le_mul_of_nonneg_right hs4 hw4]
  · rw [div_le_iff₀ hW']
    linarith [mul_le_mul_of_nonneg_right hs1' hw1, mul_le_mul_of_nonneg_right hs2' hw2,
      mul_le_mul_of_nonneg_right hs3' hw3, mul_le_mul_of_nonneg_right hs4' hw4]
  · rw [le_div_iff₀ hV']
    linarith [mul_le_mul_of_nonneg_right ht1 hv1, mul_le_mul_of_nonneg_right ht2 hv2,
      mul_le_mul_of_nonneg_right ht3 hv3, mul_le_mul_of_nonneg_right ht4 hv4,
      mul_le_mul_of_nonneg_right ht5 hv5]
  · rw [div_le_iff₀ hV']
    linarith [mul_le_mul_of_nonneg_right ht1' hv1, mul_le_mul_of_nonneg_right ht2' hv2,
      mul_le_mul_of_nonneg_right ht3' hv3, mul_le_mul_of_nonneg_right ht4' hv4,
      mul_le_mul_of_nonneg_right ht5' hv5]

/-- C4 amended, witnessed at scores 4 with the fixed CV and project weight
tables. -/
theorem weightedScore_bounds_clamped_witness :
    1 ≤ calculateWeightedScore
        (cvEntries { technicalSkillsMatch := { score := 4, details := "a" },
                     experienceLevel := { score := 4, details := "b" },
                     relevantAchievements := { score := 4, details := "c" },
                     culturalFit := { score := 4, details := "d" } })
        [("technicalSkillsMatch", 0.4), ("experienceLevel", 0.25),
         ("relevantAchievements", 0.2), ("culturalFit", 0.15)] ∧
    calculateWeightedScore
        (cvEntries { technicalSkillsMatch := { score := 4, details := "a" },
                     experienceLevel := { score := 4, details := "b" },
                     relevantAchievements := { score := 4, details := "c" },
                     culturalFit := { score := 4, details := "d" } })
        [("technicalSkillsMatch", 0.4), ("experienceLevel", 0.25),
         ("relevantAchievements", 0.2), ("culturalFit", 0.15)] ≤ 5 ∧
    1 ≤ calculateWeightedScore
        (projectEntries { correctness := { score := 4, details := "e" },
                          codeQuality := { score := 4, details := "f" },
                          resilience := { score := 4, details := "g" },
                          documentation := { score := 4, details := "h" },
                          creativity := { score := 4, details := "i" } })
        [("correctness", 0.3), ("codeQuality", 0.25), ("resilience", 0.2),
         ("documentation", 0.15), ("creativity", 0.1)] ∧
    calculateWeightedScore
        (projectEntries { correctness := { score := 4, details := "e" },
                          codeQuality := { score := 4, details := "f" },
                          resilience := { score := 4, details := "g" },
                          documentation := { score := 4, details := "h" },
                          creativity := { score := 4, details := "i" } })
        [("correctness", 0.3), ("codeQuality", 0.25), ("resilience", 0.2),
         ("documentation", 0.15), ("creativity", 0.1)] ≤ 5 := by
  refine weightedScore_bounds_clamped 4 4 4 4 0.4 0.25 0.2 0.15
    4 4 4 4 4 0.3 0.25 0.2 0.15 0.1 "a" "b" "c" "d" "e" "f" "g" "h" "i"
    ?_ ?_ ?_ ?_ ?_ ?_ ?_ ?_ ?_ ?_ ?_ ?_ ?_ ?_ ?_ ?_ ?_ ?_ ?_ ?_ ?_ ?_
    ?_ ?_ ?_ ?_ ?_ ?_ ?_ <;> norm_num

/-- Helper for C6: when every attempt in the remaining window fails with a
retryable error, the retry loop makes exactly one collaborator call per
remaining attempt and surfaces the last error's message. -/
theorem callLLMGo_transient (o : Nat → LLMAttemptOutcome) :
    ∀ remaining attempt calls, 0 < remaining →
      (∀ k, attempt ≤ k → k < attempt + remaining → isTransientFailure (o k)) →
      callLLMGo o attempt calls remaining =
        ({ response := "", success := false,
           error := some (lastAttemptMessage (o (attempt + remaining - 1))) },
         calls + remaining) := by
  intro remaining
  induction remaining with
  | zero => intro attempt calls h _; exact absurd h (by omega)
  | succ r ih =>
      intro attempt calls _ htrans
      have ht := htrans attempt (Nat.le_refl _) (by omega)
      unfold isTransientFailure at ht
      simp only [callLLMGo]
      cases hr : runAttempt (o attempt) with
      | ok t => rw [hr] at ht; exact ht.elim
      | error e =>
          rw [hr] at ht
          simp only [ht, Bool.false_eq_true, if_false]
          cases r with
          | zero =>
              simp [lastAttemptMessage, hr]
          | succ r' =>
              have hrec := ih (attempt + 1) (calls + 1) (by omega)
                (fun k hk hk' => htrans k (by omega) (by omega))
              simp only [Nat.succ_ne_zero, if_false, hrec]
              have h1 : attempt + 1 + (r' + 1) - 1 = attempt + (r' + 1 + 1) - 1 := by omega
              have h2 : calls + 1 + (r' + 1) = calls + (r' + 1 + 1) := by omega
              rw [h1, h2]

/-- C6: for the retry loop of `callLLM` with a given number of attempts:
if every attempt fails with a retryable (transient) error, exactly
`maxAttempts` collaborator calls occur and a failure carrying the last
error's message is returned; if the first attempt fails with a
client-fault status (400 bad request or 403 forbidden), exactly one call
occurs and failure is returned immediately without consuming remaining
attempts. -/
theorem callLLM_retry_policy (o : Nat → LLMAttemptOutcome) (m : Nat)
    (hm : 1 ≤ m) :
    ((∀ k, 1 ≤ k → k ≤ m → isTransientFailure (o k)) →
      callLLM o m =
        ({ response := "", success := false,
           error := some (lastAttemptMessage (o m)) }, m)) ∧
    (∀ st msg, (st = 400 ∨ st = 403) →
      o 1 = LLMAttemptOutcome.apiError st msg →
      callLLM o m =
        ({ response := "", success := false,
           error := some ("API Error: " ++ msg) }, 1)) := by
  constructor
  · intro h
    have hgo := callLLMGo_transient o m 1 0 (by omega)
      (fun k hk hk' => h k hk (by omega))
    rw [callLLM, hgo]
    have h1 : 1 + m - 1 = m := by omega
    have h2 : 0 + m = m := by omega
    rw [h1, h2]
  · rintro st msg hst h1
    obtain ⟨r, rfl⟩ : ∃ r, m = r + 1 := ⟨m - 1, by omega⟩
    rw [callLLM]
    simp only [callLLMGo, h1, runAttempt]
    rcases hst with rfl | rfl <;> simp [isNonRetryable, errorMessage]

/-- C6 witnessed: a collaborator that always throws a transient error is
called exactly 3 times for 3 attempts; one that throws a 403 `ApiError` on
the first call is called exactly once even with 2 attempts allowed. -/
theorem callLLM_retry_policy_witness :
    callLLM (fun _ => LLMAttemptOutcome.jsError "boom") 3 =
      ({ response := "", success := false, error := some "boom" }, 3) ∧
    callLLM (fun _ => LLMAttemptOutcome.apiError 403 "denied") 2 =
      ({ response := "", success := false,
         error := some ("API Error: " ++ "denied") }, 1) := by
  constructor
  · have h := (callLLM_retry_policy (fun _ => LLMAttemptOutcome.jsError "boom") 3
      (by norm_num)).1
      (fun k _ _ => by simp [isTransientFailure, runAttempt, isNonRetryable])
    simpa [lastAttemptMessage, runAttempt, errorMessage] using h
  · exact (callLLM_retry_policy (fun _ => LLMAttemptOutcome.apiError 403 "denied")
      2 (by norm_num)).2 403 "denied" (Or.inr rfl) rfl

/-- C1 counterexample: with two queued jobs created at times 1 and 2,
`startProcessing` admits the job created at time 2 — the most recently
created one — even though an earlier-created queued job is waiting, so
admission is not FIFO. -/
theorem admission_not_fifo_counterexample :
    nextJobToProcess [demoJobA, demoJobB] = some demoJobB ∧
    demoJobA ∈ [demoJobA, demoJobB] ∧
    demoJobA.status = .queued ∧
    demoJobA.createdAt < demoJobB.createdAt := by
  refine ⟨rfl, by simp, rfl, by norm_num [demoJobA, demoJobB]⟩

/-- C1 amended: whenever the queue admits a job to processing, it selects
the most recently created queued job (admission is LIFO among queued
jobs), because `getJobsByStatus` sorts most-recent-first and
`startProcessing` takes index 0. -/
theorem admission_selects_latest_queued (jobs : List QJob) (j : QJob)
    (h : nextJobToProcess jobs = some j) :
    j.status = .queued ∧
    ∀ k ∈ jobs, k.status = .queued → k.createdAt ≤ j.createdAt := by
  unfold nextJobToProcess getJobsByStatus at h
  cases hcons : (jobs.filter (fun x => x.status = JobStatus.queued)).insertionSort
      byCreatedAtDesc with
  | nil => rw [hcons] at h; simp at h
  | cons a t =>
      rw [hcons] at h
      simp only [List.head?_cons, Option.some.injEq] at h
      rcases h.symm with rfl
      have hperm := List.perm_insertionSort byCreatedAtDesc
        (jobs.filter (fun x => x.status = JobStatus.queued))
      have hsorted := List.sorted_insertionSort byCreatedAtDesc
        (jobs.filter (fun x => x.status = JobStatus.queued))
      rw [hcons] at hperm hsorted
      constructor
      · have hj : j ∈ jobs.filter (fun x => x.status = JobStatus.queued) :=
          hperm.subset (List.mem_cons_self _ _)
        simpa using List.of_mem_filter hj
      · intro k hk hkq
        have hkf : k ∈ jobs.filter (fun x => x.status = JobStatus.queued) :=
          List.mem_filter.mpr ⟨hk, by simp [hkq]⟩
        have hkl : k ∈ j :: t := hperm.symm.subset hkf
        rcases List.mem_cons.mp hkl with rfl | hkt
        · exact le_refl _
        · exact (List.sorted_cons.mp hsorted).1 k hkt

/-- C1 amended, witnessed on the two demo jobs. -/
theorem admission_selects_latest_queued_witness :
    demoJobB.status = .queued ∧
    ∀ k ∈ [demoJobA, demoJobB], k.status = .queued →
      k.createdAt ≤ demoJobB.createdAt :=
  admission_selects_latest_queued [demoJobA, demoJobB] demoJobB rfl

/-- Helper for C2: `countProcessing` across an append with a distinguished
element. -/
theorem countProcessing_append_cons (pre post : List JobStatus) (x : JobStatus) :
    countProcessing (pre ++ x :: post) =
      countProcessing pre + (if x = JobStatus.processing then 1 else 0) +
        countProcessing post := by
  cases x <;> simp [countProcessing, List.filter_append, List.filter_cons] <;> omega

/-- C2: under every submission pattern (every interleaving of submissions,
admissions and terminal transitions allowed by the scheduler semantics),
at no reachable state are more than `evaluationConcurrency = 3` jobs
simultaneously in `processing`: a queued job is admitted only while a
slot is free. -/
theorem scheduler_processing_bound (s : List JobStatus)
    (h : SchedulerReachable evaluationConcurrency s) :
    countProcessing s ≤ evaluationConcurrency := by
  induction h with
  | refl => simp [countProcessing]
  | tail _ step ih =>
      cases step with
      | submit s' => simpa [countProcessing, List.filter_cons] using ih
      | admitJob pre post hlt =>
          rw [countProcessing_append_cons] at hlt ⊢
          simp at hlt ⊢
          omega
      | complete pre post =>
          rw [countProcessing_append_cons] at ih ⊢
          simp at ih ⊢
          omega
      | fail pre post =>
          rw [countProcessing_append_cons] at ih ⊢
          simp at ih ⊢
          omega

/-- C2 witnessed along a concrete reachable run: submit one job, admit it
while all three slots are free. -/
theorem scheduler_processing_bound_witness :
    countProcessing [JobStatus.processing] ≤ evaluationConcurrency :=
  scheduler_processing_bound [JobStatus.processing]
    (Relation.ReflTransGen.tail
      (Relation.ReflTransGen.tail Relation.ReflTransGen.refl
        (SchedulerStep.submit []))
      (SchedulerStep.admitJob [] [] (by decide)))

end Screening
